import Mathlib

/- Shallow embedding of the control-flow core of the working_with_rag repository:
   the adaptive reflection loop (src/Agents/adaptive_refelction.py), the
   plan-execute-reflect pipeline (src/Agents/plan_execute.py), the tool-routing
   assistant (src/LangGraph Basics/stateful_agent.py and agentic_rag_system.py),
   and the Christmas RAG HTTP handlers (src/christmas_based_rag/backend/main.py).
   LLM round-trips and the vector store are modelled as oracles (arbitrary
   functions supplied as parameters); Python ints are modelled as Int (Nat where
   the value is a list index created at 0), Python floats in responses as Rat. -/

/- Python string primitives, modelled on the character list underlying a String.
   These model str.strip() / str.lower() / str.upper() / str.rstrip(chars) /
   str.split() for the ASCII texts this repository manipulates. -/

def stripCharsLeft (l : List Char) : List Char :=
  l.dropWhile Char.isWhitespace

def stripChars (l : List Char) : List Char :=
  ((l.dropWhile Char.isWhitespace).reverse.dropWhile Char.isWhitespace).reverse

def pyStrip (s : String) : String :=
  ⟨stripChars s.data⟩

def pyLower (s : String) : String :=
  ⟨s.data.map Char.toLower⟩

def pyUpper (s : String) : String :=
  ⟨s.data.map Char.toUpper⟩

def pyRstripChars (cs : List Char) (s : String) : String :=
  ⟨(s.data.reverse.dropWhile (fun c => cs.contains c)).reverse⟩

/- Splitting at every character satisfying p, keeping empty pieces
   (the behaviour of str.split(sep) for a one-character separator). -/
def splitCharsBy (p : Char → Bool) : List Char → List (List Char)
  | [] => [[]]
  | c :: cs =>
    if p c then [] :: splitCharsBy p cs
    else
      match splitCharsBy p cs with
      | [] => [[c]]
      | w :: ws => (c :: w) :: ws

def pySplitLines (s : String) : List String :=
  (splitCharsBy (fun c => c == '\n') s.data).map (fun l => (⟨l⟩ : String))

/- Python str.split() with no argument: split on whitespace runs,
   dropping empty pieces. -/
def pySplitWhitespace (s : String) : List String :=
  ((splitCharsBy Char.isWhitespace s.data).map (fun l => (⟨l⟩ : String))).filter
    (fun w => w != "")

def listIsPrefixOf : List Char → List Char → Bool
  | [], _ => true
  | _ :: _, [] => false
  | a :: as, b :: bs => a == b && listIsPrefixOf as bs

def containsSub (needle : List Char) : List Char → Bool
  | [] => listIsPrefixOf needle []
  | c :: cs => listIsPrefixOf needle (c :: cs) || containsSub needle cs

/- Python substring membership, needle in hay. -/
def pyIn (needle hay : String) : Bool :=
  containsSub needle.data hay.data

/- Routing target of the two generate-critique-refine routers
   (the Literal return type of both should_refine functions). -/
inductive RefineRoute where
  | generator
  | finalizer
deriving DecidableEq, Repr

namespace AdaptiveReflection

/- QualityScore from src/Agents/adaptive_refelction.py lines 25-44.
   The three rubric fields are pydantic-validated ints in 1..5. -/
structure QualityScore where
  clarity : Int
  completeness : Int
  accuracy : Int
  feedback : String
deriving DecidableEq, Repr

def QualityScore.is_approved (s : QualityScore) : Bool :=
  decide (s.clarity ≥ 4) && decide (s.completeness ≥ 4) && decide (s.accuracy ≥ 4)

def QualityScore.pyStr (s : QualityScore) : String :=
  "Clarity: " ++ toString s.clarity ++ ", Completeness: " ++ toString s.completeness
    ++ ", Accuracy: " ++ toString s.accuracy

/- AdaptiveReflectionState (lines 47-54). -/
structure ARState where
  task : String
  draft : String
  scores : List QualityScore
  iterations : Int
  final_output : String
deriving Repr

def MAX_ITERATIONS : Int := 3

/- Prompt built by the generator node (lines 60-83). -/
def generatorPrompt (s : ARState) : String :=
  if s.iterations = 0 then
    "Create a response for this task:\n\nTask: " ++ s.task
      ++ "\n\nProvide a clear, complete, and accurate answer."
  else
    let last_score := s.scores.getLastD ⟨0, 0, 0, ""⟩
    "Improve this draft based on the quality feedback:\n\nTask: " ++ s.task
      ++ "\n\nCurrent draft: " ++ s.draft
      ++ "\n\nQuality Scores: " ++ last_score.pyStr
      ++ "\nFeedback: " ++ last_score.feedback
      ++ "\n\nCreate an improved version addressing the feedback."

/- Generator node (lines 60-87): writes only the draft; the LLM call is the
   oracle g applied to the prompt. -/
def generator (g : String → String) (s : ARState) : ARState :=
  { s with draft := g (generatorPrompt s) }

def criticPrompt (s : ARState) : String :=
  "Evaluate this response on three criteria (score 1-5 each):\n\nTask: " ++ s.task
    ++ "\n\nResponse: " ++ s.draft
    ++ "\n\nCriteria:\n1. Clarity (1-5): Is it clear and easy to understand?"
    ++ "\n2. Completeness (1-5): Does it fully address the task?"
    ++ "\n3. Accuracy (1-5): Is the information correct?"
    ++ "\n\nFor each score below 4, provide specific feedback on what needs improvement."
    ++ "\nIf all scores are 4 or above, the response is approved."

/- Critic node (lines 90-116): appends the structured score and increments the
   iteration counter. -/
def critic (c : String → QualityScore) (s : ARState) : ARState :=
  let score := c (criticPrompt s)
  { s with scores := s.scores ++ [score], iterations := s.iterations + 1 }

/- Finalizer node (lines 119-127): copies the draft into final_output. -/
def finalizer (s : ARState) : ARState :=
  { s with final_output := s.draft }

/- Router (lines 130-146). -/
def should_refine (s : ARState) : RefineRoute :=
  match s.scores.getLast? with
  | none => .generator
  | some last_score =>
    if last_score.is_approved = true then .finalizer
    else if s.iterations ≥ MAX_ITERATIONS then .finalizer
    else .generator

/- One generator-critic round, the unit between two router observations in the
   compiled graph (edges at lines 155-158). -/
def roundStep (g : String → String) (c : String → QualityScore) (s : ARState) : ARState :=
  critic c (generator g s)

/- Fuel-indexed run of the refine loop: generator, critic, then the router;
   returns the post-finalizer state and the number of generator invocations,
   or none if the fuel runs out before the router stops. -/
def refineLoop (g : String → String) (c : String → QualityScore) :
    Nat → ARState → Option (ARState × Nat)
  | 0, s =>
    let s2 := roundStep g c s
    match should_refine s2 with
    | .finalizer => some (finalizer s2, 1)
    | .generator => none
  | fuel + 1, s =>
    let s2 := roundStep g c s
    match should_refine s2 with
    | .finalizer => some (finalizer s2, 1)
    | .generator =>
      match refineLoop g c fuel s2 with
      | none => none
      | some (fin, n) => some (fin, n + 1)

/- Graph wiring recorded by reflection_builder (lines 149-160). -/
def reflection_builder_edges : List (String × String) :=
  [("__start__", "generator"), ("generator", "critic"), ("finalizer", "__end__")]

def reflection_builder_conditional_sources : List String :=
  ["critic"]

end AdaptiveReflection

namespace PlanExecute

/- PlanExecuteReflectState from src/Agents/plan_execute.py lines 25-35.
   current_step is a list index created at 0 by the planner, so Nat;
   reflection_iterations mirrors the Python int. -/
structure PEState where
  input : String
  plan : List String
  current_step : Nat
  results : List String
  draft : String
  critique : String
  reflection_iterations : Int
  final_output : String
deriving Repr

def MAX_REFLECTION_ITERATIONS : Int := 2

def plannerPrompt (s : PEState) : String :=
  "Create a step-by-step plan for this task:\n\nTask: " ++ s.input
    ++ "\n\nReturn a numbered list of concrete steps. Keep it simple (3-5 steps)."
    ++ "\nEach step should be clear and actionable."

/- Plan parsing inside the planner node (lines 52-57): keep the stripped form of
   every line that strips to non-empty and has a digit among its first three raw
   characters. -/
def parse_steps (content : String) : List String :=
  ((pySplitLines content).filter
    (fun line => pyStrip line != "" && (line.data.take 3).any Char.isDigit)).map pyStrip

/- Planner node (lines 41-64). -/
def planner (o : String → String) (s : PEState) : PEState :=
  { s with plan := parse_steps (o (plannerPrompt s)),
           current_step := 0, results := [], reflection_iterations := 0 }

/- Python repr of a list of strings, as interpolated into the executor prompt
   (escaping inside the strings is not modelled; the oracle is universally
   quantified, so nothing depends on it). -/
def pyReprStrList (l : List String) : String :=
  "[" ++ String.intercalate ", " (l.map (fun s => "'" ++ s ++ "'")) ++ "]"

def executorPrompt (results : List String) (step : String) : String :=
  "Previous results: " ++ pyReprStrList results
    ++ "\n\nExecute this step: " ++ step
    ++ "\n\nProvide a clear result for this step."

/- Executor node (lines 67-87): guarded no-op past the end of the plan,
   otherwise appends one labelled result and advances current_step. -/
def executor (o : String → String) (s : PEState) : PEState :=
  if s.plan.length ≤ s.current_step then s
  else
    let current := s.plan.getD s.current_step ""
    let result := "Step " ++ toString (s.current_step + 1) ++ " result: "
      ++ o (executorPrompt s.results current)
    { s with results := s.results ++ [result], current_step := s.current_step + 1 }

inductive ExecRoute where
  | executor
  | generator
deriving DecidableEq, Repr

/- Execution-phase router (lines 90-96). -/
def should_continue_execution (s : PEState) : ExecRoute :=
  if s.current_step < s.plan.length then .executor else .generator

/- Fuel-indexed execution phase: run the executor, consult the router, repeat,
   handing the state to the synthesis generator when the router leaves the loop
   (edges at lines 190-195). -/
def execLoop (o : String → String) : Nat → PEState → Option PEState
  | 0, s =>
    let s2 := executor o s
    match should_continue_execution s2 with
    | .generator => some s2
    | .executor => none
  | fuel + 1, s =>
    let s2 := executor o s
    match should_continue_execution s2 with
    | .generator => some s2
    | .executor => execLoop o fuel s2

/- Closed form of the accumulated results after k executed steps. -/
def resultsUpTo (o : String → String) (plan : List String) : Nat → List String
  | 0 => []
  | k + 1 =>
    resultsUpTo o plan k
      ++ ["Step " ++ toString (k + 1) ++ " result: "
            ++ o (executorPrompt (resultsUpTo o plan k) (plan.getD k ""))]

def generatorPrompt (s : PEState) : String :=
  if s.reflection_iterations = 0 then
    "Synthesize these execution results into a complete answer:\n\nOriginal task: "
      ++ s.input ++ "\n\nExecution results:\n" ++ String.intercalate "\n" s.results
      ++ "\n\nCreate a clear, comprehensive final answer."
  else
    "Improve this draft based on the critique:\n\nTask: " ++ s.input
      ++ "\n\nCurrent draft: " ++ s.draft
      ++ "\n\nCritique: " ++ s.critique
      ++ "\n\nCreate an improved version addressing the critique."

/- Synthesis/refine generator node (lines 99-128). -/
def generator (o : String → String) (s : PEState) : PEState :=
  { s with draft := o (generatorPrompt s) }

def criticPrompt (s : PEState) : String :=
  "Evaluate this response for quality:\n\nTask: " ++ s.input
    ++ "\n\nResponse: " ++ s.draft
    ++ "\n\nProvide constructive critique. Consider:"
    ++ "\n- Is it clear and well-organized?"
    ++ "\n- Does it fully address the task?"
    ++ "\n- Is it appropriate for the target audience?"
    ++ "\n\nIf it is excellent, start with \"APPROVED:\"."
    ++ "\nOtherwise, provide specific improvements needed."

/- Critic node (lines 131-156): stores the critique and increments the
   reflection counter. -/
def critic (o : String → String) (s : PEState) : PEState :=
  { s with critique := o (criticPrompt s),
           reflection_iterations := s.reflection_iterations + 1 }

/- Router of the reflection loop (lines 159-172): the Python test is
   "APPROVED" in state.get("critique", "").upper(). -/
def should_refine (s : PEState) : RefineRoute :=
  if pyIn "APPROVED" (pyUpper s.critique) = true then .finalizer
  else if s.reflection_iterations ≥ MAX_REFLECTION_ITERATIONS then .finalizer
  else .generator

/- Finalizer node (lines 175-178). -/
def finalizer (s : PEState) : PEState :=
  { s with final_output := s.draft }

def roundStep (g : String → String) (c : String → String) (s : PEState) : PEState :=
  critic c (generator g s)

/- Fuel-indexed run of the reflection loop of this graph
   (edges at lines 196-200). -/
def refineLoop (g : String → String) (c : String → String) :
    Nat → PEState → Option (PEState × Nat)
  | 0, s =>
    let s2 := roundStep g c s
    match should_refine s2 with
    | .finalizer => some (finalizer s2, 1)
    | .generator => none
  | fuel + 1, s =>
    let s2 := roundStep g c s
    match should_refine s2 with
    | .finalizer => some (finalizer s2, 1)
    | .generator =>
      match refineLoop g c fuel s2 with
      | none => none
      | some (fin, n) => some (fin, n + 1)

/- Graph wiring recorded by plan_execute_reflect_builder (lines 181-200). -/
def plan_execute_builder_edges : List (String × String) :=
  [("__start__", "planner"), ("planner", "executor"),
   ("generator", "critic"), ("finalizer", "__end__")]

def plan_execute_builder_conditional_sources : List String :=
  ["executor", "critic"]

end PlanExecute

namespace StatefulAgent

/- Tool-routing assistant shared by src/LangGraph Basics/stateful_agent.py
   (lines 291-314) and src/LangGraph Basics/agentic_rag_system.py
   (lines 468-496): a MessagesState whose last message may carry tool calls. -/
structure ToolCall where
  name : String
  args : String
  id : String
deriving DecidableEq, Repr

structure Message where
  role : String
  content : String
  tool_calls : List ToolCall
deriving DecidableEq, Repr

structure MessagesState where
  messages : List Message
deriving Repr

def emptyMessage : Message := ⟨"", "", []⟩

/- Router (stateful_agent.py lines 297-303, agentic_rag_system.py 478-484):
   route to the tool node when the last message carries tool calls. -/
def should_continue (s : MessagesState) : String :=
  let last_message := s.messages.getLastD emptyMessage
  if last_message.tool_calls ≠ [] then "tools" else "__end__"

def tool_message (result : String) : Message := ⟨"tool", result, []⟩

/- Fuel-indexed run of the assistant-tools cycle (edges at lines 306-314):
   call the assistant oracle a, append its response, finish if it requests no
   tool, otherwise execute every requested tool through the oracle t, append
   the tool messages, count the invocations and loop. Returns the final
   message list and the total number of capability invocations. -/
def agentRun (a : List Message → Message) (t : ToolCall → String) :
    Nat → List Message → Nat → Option (List Message × Nat)
  | 0, msgs, count =>
    let response := a msgs
    if response.tool_calls = [] then some (msgs ++ [response], count)
    else none
  | fuel + 1, msgs, count =>
    let response := a msgs
    if response.tool_calls = [] then some (msgs ++ [response], count)
    else
      agentRun a t fuel
        (msgs ++ [response] ++ response.tool_calls.map (fun tc => tool_message (t tc)))
        (count + response.tool_calls.length)

end StatefulAgent

namespace ChristmasRag

/- Models src/christmas_based_rag/backend/main.py. The vector store
   (ChristmasRAG.search) and the Groq LLM are oracles; relevance floats are
   modelled as rationals. -/

structure SearchRequest where
  query : String
  n_results : Int
  history : List (String × String)
deriving Repr

/- ChunkResponse (lines 54-61); the Python field name section is a Lean
   keyword, hence section_. -/
structure ChunkResponse where
  id : Nat
  text : String
  section_ : String
  relevance : Rat
deriving DecidableEq, Repr

structure SearchResponse where
  success : Bool
  query : String
  chunks : List ChunkResponse
  total_chunks : Nat
deriving DecidableEq, Repr

/- Result of ChristmasRAG.search (lines 180-190): three aligned lists. -/
structure VecResults where
  documents : List String
  metadatas : List (Option String)
  distances : List Rat
deriving Repr

def GREETING_TEXT : String :=
  "Ho ho ho! Merry Christmas! 🎅 How can I help you learn about Christmas traditions today?"

def greetingsList : List String := ["hi", "hello", "hey", "greetings"]

/- Normalization applied before the greeting membership test (lines 250-251 and
   347-348): request.query.lower().strip().rstrip("!?."). -/
def normalized_query (q : String) : String :=
  pyRstripChars ['!', '?', '.'] (pyStrip (pyLower q))

/- Python round(x, 2), modelled on rationals. -/
def round2 (x : Rat) : Rat := (round (x * 100) : Rat) / 100

/- Chunk formatting (lines 269-277 and 362-370). -/
def build_chunks (r : VecResults) : List ChunkResponse :=
  (List.range r.documents.length).map (fun i =>
    ⟨i, r.documents.getD i "",
      (r.metadatas.getD i none).getD "Unknown",
      round2 (1 - r.distances.getD i 0)⟩)

def chunk_context (chunks : List ChunkResponse) : String :=
  String.intercalate "\n\n" (chunks.map (fun c => "Section: " ++ c.section_ ++ "\n" ++ c.text))

def search_prompt (chunks : List ChunkResponse) (query : String) : String :=
  "You are a helpful Christmas expert assistant. Use the following context to answer"
    ++ " the user's question about Christmas. Be friendly, informative, and concise."
    ++ "\n\nContext:\n" ++ chunk_context chunks
    ++ "\n\nUser Question: " ++ query
    ++ "\n\nAnswer:"

def greeting_chunk : ChunkResponse := ⟨0, GREETING_TEXT, "Greeting", 1⟩

def ai_chunk (answer : String) : ChunkResponse := ⟨0, answer, "AI Generated Answer", 1⟩

/- Outcome of one handler call: an HTTP error (status, detail) or a 200
   response, together with how many vector-store searches and LLM calls
   were made while producing it. -/
structure HandlerRun where
  outcome : Except (Int × String) SearchResponse
  vec_calls : Nat
  llm_calls : Nat
deriving Repr

/- Body of the try block of POST /search (lines 229-332). The groq oracle is
   none when the module-level client failed to initialize; when present, its
   none result models a Groq API exception, which falls back to
   retrieval-only chunks. -/
def search_inner (vec : String → Int → VecResults)
    (groq : Option (String → Option String)) (req : SearchRequest) : HandlerRun :=
  if req.query = "" ∨ pyStrip req.query = "" then
    ⟨.error (400, "Query cannot be empty"), 0, 0⟩
  else if req.n_results < 1 ∨ 10 < req.n_results then
    ⟨.error (400, "n_results must be between 1 and 10"), 0, 0⟩
  else if greetingsList.contains (normalized_query req.query) = true then
    ⟨.ok ⟨true, req.query, [greeting_chunk], 1⟩, 0, 0⟩
  else
    let results := vec req.query req.n_results
    let chunks := build_chunks results
    match groq with
    | none => ⟨.ok ⟨true, req.query, chunks, chunks.length⟩, 1, 0⟩
    | some f =>
      if chunks = [] then ⟨.ok ⟨true, req.query, chunks, chunks.length⟩, 1, 0⟩
      else
        match f (search_prompt chunks req.query) with
        | some answer =>
          let chunks2 := chunks.set 0 (ai_chunk answer)
          ⟨.ok ⟨true, req.query, chunks2, chunks2.length⟩, 1, 1⟩
        | none => ⟨.ok ⟨true, req.query, chunks, chunks.length⟩, 1, 1⟩

/- Starlette HTTPException stringification, f-string status: detail. -/
def http_exception_str (e : Int × String) : String :=
  toString e.1 ++ ": " ++ e.2

/- POST /search handler (lines 229-332): the except Exception clause catches
   every raised exception, the 400 validation ones included, and re-raises it
   as HTTP 500 with the stringified exception as detail. -/
def search (vec : String → Int → VecResults)
    (groq : Option (String → Option String)) (req : SearchRequest) : HandlerRun :=
  let r := search_inner vec groq req
  match r.outcome with
  | .ok resp => ⟨.ok resp, r.vec_calls, r.llm_calls⟩
  | .error e => ⟨.error (500, http_exception_str e), r.vec_calls, r.llm_calls⟩

/- Server-sent events emitted by POST /search/stream (lines 335-480). -/
inductive StreamEvent where
  | errorEv (msg : String)
  | tokenEv (tok : String)
  | chunksEv (chunks : List ChunkResponse)
  | doneEv (chunks : Option (List ChunkResponse))
deriving DecidableEq, Repr

def stream_words (text : String) : List StreamEvent :=
  (pySplitWhitespace text).map (fun w => .tokenEv (w ++ " "))

def lastN (n : Nat) (l : List (String × String)) : List (String × String) :=
  l.drop (l.length - n)

def STREAM_SYSTEM_PROMPT : String :=
  "You are YuletideAI, a warm and friendly Christmas expert assistant."

/- Messages passed to the streaming Groq call (lines 397-444): the system
   prompt, the last 10 history entries, then the contextual user prompt. -/
def stream_messages (req : SearchRequest) (prompt : String) : List (String × String) :=
  [("system", STREAM_SYSTEM_PROMPT)] ++ lastN 10 req.history ++ [("user", prompt)]

/- POST /search/stream handler (lines 335-480): no n_results validation is
   performed; the greeting branch streams the greeting word by word and ends
   with a done event carrying an empty chunk list. The streaming LLM oracle
   returns the list of non-empty delta tokens, or none for a Groq exception,
   which falls back to streaming the first chunk word by word. -/
def search_stream (vec : String → Int → VecResults)
    (groqStream : Option (List (String × String) → Option (List String)))
    (req : SearchRequest) : List StreamEvent × Nat × Nat :=
  if req.query = "" ∨ pyStrip req.query = "" then
    ([.errorEv "Query cannot be empty"], 0, 0)
  else if greetingsList.contains (normalized_query req.query) = true then
    (stream_words GREETING_TEXT ++ [.doneEv (some [])], 0, 0)
  else
    let results := vec req.query req.n_results
    let chunks := build_chunks results
    let head := [StreamEvent.chunksEv chunks]
    match groqStream with
    | some f =>
      if chunks ≠ [] then
        match f (stream_messages req (search_prompt chunks req.query)) with
        | some toks =>
          (head ++ (toks.filter (fun t => t != "")).map .tokenEv ++ [.doneEv none], 1, 1)
        | none =>
          (head ++ stream_words ((chunks.getD 0 ⟨0, "", "", 0⟩).text) ++ [.doneEv none], 1, 1)
      else
        (head ++ stream_words "No information found." ++ [.doneEv none], 1, 0)
    | none =>
      let fallback := if chunks ≠ [] then (chunks.getD 0 ⟨0, "", "", 0⟩).text
        else "No information found."
      (head ++ stream_words fallback ++ [.doneEv none], 1, 0)

/- Trivial vector store used by concrete counterexamples and witnesses. -/
def emptyVec : String → Int → VecResults := fun _ _ => ⟨[], [], []⟩

end ChristmasRag

/-- C1: for a QualityScore whose fields lie in 1..5, is_approved is true exactly
when clarity, completeness and accuracy are all at least 4; in particular
(4,4,4) is approved and (3,4,4) is not. -/
theorem C1_is_approved_iff :
    (∀ s : AdaptiveReflection.QualityScore,
      1 ≤ s.clarity → s.clarity ≤ 5 →
      1 ≤ s.completeness → s.completeness ≤ 5 →
      1 ≤ s.accuracy → s.accuracy ≤ 5 →
      (s.is_approved = true ↔ (4 ≤ s.clarity ∧ 4 ≤ s.completeness ∧ 4 ≤ s.accuracy)))
    ∧ (AdaptiveReflection.QualityScore.mk 4 4 4 "ok").is_approved = true
    ∧ (AdaptiveReflection.QualityScore.mk 3 4 4 "low clarity").is_approved = false := by
  refine ⟨fun s _ _ _ _ _ _ => ?_, by decide, by decide⟩
  simp [AdaptiveReflection.QualityScore.is_approved, ge_iff_le, and_assoc]

/-- C1 witness: the characterization applied at the boundary score (4,4,4). -/
theorem C1_is_approved_iff_witness :
    ((AdaptiveReflection.QualityScore.mk 4 4 4 "ok").is_approved = true ↔
      (4 ≤ (4 : Int) ∧ 4 ≤ (4 : Int) ∧ 4 ≤ (4 : Int))) :=
  C1_is_approved_iff.1 ⟨4, 4, 4, "ok"⟩ (by decide) (by decide) (by decide)
    (by decide) (by decide) (by decide)

/- Shared helper lemmas about the adaptive-reflection round. -/

lemma AR_generator_iterations (g : String → String) (s : AdaptiveReflection.ARState) :
    (AdaptiveReflection.generator g s).iterations = s.iterations := rfl

lemma AR_critic_iterations (c : String → AdaptiveReflection.QualityScore)
    (s : AdaptiveReflection.ARState) :
    (AdaptiveReflection.critic c s).iterations = s.iterations + 1 := rfl

lemma AR_roundStep_iterations (g : String → String)
    (c : String → AdaptiveReflection.QualityScore) (s : AdaptiveReflection.ARState) :
    (AdaptiveReflection.roundStep g c s).iterations = s.iterations + 1 := rfl

lemma AR_iterate_iterations (g : String → String)
    (c : String → AdaptiveReflection.QualityScore) (s : AdaptiveReflection.ARState)
    (k : Nat) :
    ((AdaptiveReflection.roundStep g c)^[k] s).iterations = s.iterations + k := by
  induction k with
  | zero => simp
  | succ k ih =>
    rw [Function.iterate_succ_apply', AR_roundStep_iterations, ih]
    push_cast
    ring

lemma PE_generator_iterations (g : String → String) (s : PlanExecute.PEState) :
    (PlanExecute.generator g s).reflection_iterations = s.reflection_iterations := rfl

lemma PE_critic_iterations (c : String → String) (s : PlanExecute.PEState) :
    (PlanExecute.critic c s).reflection_iterations = s.reflection_iterations + 1 := rfl

lemma PE_roundStep_iterations (g c : String → String) (s : PlanExecute.PEState) :
    (PlanExecute.roundStep g c s).reflection_iterations = s.reflection_iterations + 1 := rfl

lemma PE_iterate_iterations (g c : String → String) (s : PlanExecute.PEState) (k : Nat) :
    ((PlanExecute.roundStep g c)^[k] s).reflection_iterations =
      s.reflection_iterations + k := by
  induction k with
  | zero => simp
  | succ k ih =>
    rw [Function.iterate_succ_apply', PE_roundStep_iterations, ih]
    push_cast
    ring

/-- C3: across the refine loops of both agent graphs, each critic pass increments
the iteration counter by exactly 1, the generator, finalizer (and, for the
plan-execute graph, executor) nodes leave it unchanged, and the counter seen at
the k-th router observation (the k-fold generator-critic round) is monotonically
non-decreasing in k. -/
theorem C3_iteration_counter :
    (∀ (g : String → String) (c : String → AdaptiveReflection.QualityScore)
        (s : AdaptiveReflection.ARState),
      (AdaptiveReflection.generator g s).iterations = s.iterations ∧
      (AdaptiveReflection.critic c s).iterations = s.iterations + 1 ∧
      (AdaptiveReflection.finalizer s).iterations = s.iterations) ∧
    (∀ (g : String → String) (c : String → AdaptiveReflection.QualityScore)
        (s : AdaptiveReflection.ARState) (k : Nat),
      ((AdaptiveReflection.roundStep g c)^[k + 1] s).iterations =
        ((AdaptiveReflection.roundStep g c)^[k] s).iterations + 1) ∧
    (∀ (g : String → String) (c : String → AdaptiveReflection.QualityScore)
        (s : AdaptiveReflection.ARState) (k m : Nat), k ≤ m →
      ((AdaptiveReflection.roundStep g c)^[k] s).iterations ≤
        ((AdaptiveReflection.roundStep g c)^[m] s).iterations) ∧
    (∀ (g c o : String → String) (s : PlanExecute.PEState),
      (PlanExecute.generator g s).reflection_iterations = s.reflection_iterations ∧
      (PlanExecute.critic c s).reflection_iterations = s.reflection_iterations + 1 ∧
      (PlanExecute.finalizer s).reflection_iterations = s.reflection_iterations ∧
      (PlanExecute.executor o s).reflection_iterations = s.reflection_iterations) ∧
    (∀ (g c : String → String) (s : PlanExecute.PEState) (k m : Nat), k ≤ m →
      ((PlanExecute.roundStep g c)^[k] s).reflection_iterations ≤
        ((PlanExecute.roundStep g c)^[m] s).reflection_iterations) := by
  refine ⟨fun g c s => ⟨rfl, rfl, rfl⟩, ?_, ?_, ?_, ?_⟩
  · intro g c s k
    rw [AR_iterate_iterations, AR_iterate_iterations]
    push_cast
    ring
  · intro g c s k m hkm
    rw [AR_iterate_iterations, AR_iterate_iterations]
    omega
  · intro g c o s
    refine ⟨rfl, rfl, rfl, ?_⟩
    unfold PlanExecute.executor
    split <;> rfl
  · intro g c s k m hkm
    rw [PE_iterate_iterations, PE_iterate_iterations]
    omega

/-- C3 witness: monotonicity of the router-observed counter applied across the
first two rounds of a concrete run. -/
theorem C3_iteration_counter_witness :
    ((AdaptiveReflection.roundStep (fun _ => "draft") (fun _ => ⟨1, 1, 1, "weak"⟩))^[1]
        (⟨"task", "", [], 0, ""⟩ : AdaptiveReflection.ARState)).iterations ≤
      ((AdaptiveReflection.roundStep (fun _ => "draft") (fun _ => ⟨1, 1, 1, "weak"⟩))^[2]
        (⟨"task", "", [], 0, ""⟩ : AdaptiveReflection.ARState)).iterations :=
  C3_iteration_counter.2.2.1 (fun _ => "draft") (fun _ => ⟨1, 1, 1, "weak"⟩)
    ⟨"task", "", [], 0, ""⟩ 1 2 (by decide)

/-- C4: each refine-loop router returns the stop target (finalizer) exactly when
the most recent critique is an explicit approval or the iteration counter has
reached the fixed maximum, and otherwise returns the continue target
(generator); for the adaptive graph the most recent critique is the last
appended QualityScore, for the plan-execute graph approval is the substring
test APPROVED in the uppercased critique. -/
theorem C4_router_stop_iff :
    (∀ s : AdaptiveReflection.ARState, s.scores ≠ [] →
      (AdaptiveReflection.should_refine s = .finalizer ↔
        ((s.scores.getLastD ⟨0, 0, 0, ""⟩).is_approved = true ∨
          AdaptiveReflection.MAX_ITERATIONS ≤ s.iterations)) ∧
      (AdaptiveReflection.should_refine s = .generator ↔
        ¬((s.scores.getLastD ⟨0, 0, 0, ""⟩).is_approved = true ∨
          AdaptiveReflection.MAX_ITERATIONS ≤ s.iterations))) ∧
    (∀ s : PlanExecute.PEState,
      (PlanExecute.should_refine s = .finalizer ↔
        (pyIn "APPROVED" (pyUpper s.critique) = true ∨
          PlanExecute.MAX_REFLECTION_ITERATIONS ≤ s.reflection_iterations)) ∧
      (PlanExecute.should_refine s = .generator ↔
        ¬(pyIn "APPROVED" (pyUpper s.critique) = true ∨
          PlanExecute.MAX_REFLECTION_ITERATIONS ≤ s.reflection_iterations))) := by
  constructor
  · intro s hs
    obtain ⟨last, hlast⟩ : ∃ x, s.scores.getLast? = some x :=
      Option.isSome_iff_exists.mp (List.getLast?_isSome.mpr hs)
    have hD : s.scores.getLastD ⟨0, 0, 0, ""⟩ = last := by
      rw [List.getLastD_eq_getLast?, hlast]
      rfl
    unfold AdaptiveReflection.should_refine
    rw [hlast, hD]
    by_cases h1 : last.is_approved = true
    · simp [h1]
    · by_cases h2 : AdaptiveReflection.MAX_ITERATIONS ≤ s.iterations
      · simp [h1, h2, ge_iff_le]
      · simp [h1, h2, ge_iff_le]
  · intro s
    unfold PlanExecute.should_refine
    by_cases h1 : pyIn "APPROVED" (pyUpper s.critique) = true
    · simp [h1]
    · by_cases h2 : PlanExecute.MAX_REFLECTION_ITERATIONS ≤ s.reflection_iterations
      · simp [h1, h2, ge_iff_le]
      · simp [h1, h2, ge_iff_le]

/-- C4 witness: the adaptive router applied to a concrete state whose last
critique is an approval. -/
theorem C4_router_stop_iff_witness :
    AdaptiveReflection.should_refine ⟨"t", "d", [⟨4, 4, 5, "good"⟩], 1, ""⟩ =
      RefineRoute.finalizer :=
  (C4_router_stop_iff.1 ⟨"t", "d", [⟨4, 4, 5, "good"⟩], 1, ""⟩ (by decide)).1.mpr
    (Or.inl (by decide))

/- Router facts used by the bounded-loop proofs. -/

lemma AR_roundStep_scores (g : String → String)
    (c : String → AdaptiveReflection.QualityScore) (s : AdaptiveReflection.ARState) :
    (AdaptiveReflection.roundStep g c s).scores =
      s.scores ++ [c (AdaptiveReflection.criticPrompt (AdaptiveReflection.generator g s))] :=
  rfl

lemma AR_roundStep_stop_of_max (g : String → String)
    (c : String → AdaptiveReflection.QualityScore) (s : AdaptiveReflection.ARState)
    (hge : AdaptiveReflection.MAX_ITERATIONS ≤ (AdaptiveReflection.roundStep g c s).iterations) :
    AdaptiveReflection.should_refine (AdaptiveReflection.roundStep g c s) =
      RefineRoute.finalizer := by
  unfold AdaptiveReflection.should_refine
  rw [AR_roundStep_scores, List.getLast?_concat]
  by_cases h1 :
      (c (AdaptiveReflection.criticPrompt (AdaptiveReflection.generator g s))).is_approved = true
  · simp [h1]
  · simp [h1, ge_iff_le, hge]

lemma AR_roundStep_continue_lt (g : String → String)
    (c : String → AdaptiveReflection.QualityScore) (s : AdaptiveReflection.ARState)
    (h : AdaptiveReflection.should_refine (AdaptiveReflection.roundStep g c s) =
      RefineRoute.generator) :
    (AdaptiveReflection.roundStep g c s).iterations < AdaptiveReflection.MAX_ITERATIONS := by
  by_contra hge
  push_neg at hge
  rw [AR_roundStep_stop_of_max g c s hge] at h
  exact RefineRoute.noConfusion h

lemma AR_refineLoop_terminates (g : String → String)
    (c : String → AdaptiveReflection.QualityScore) :
    ∀ (fuel : Nat) (s : AdaptiveReflection.ARState),
      (AdaptiveReflection.MAX_ITERATIONS - s.iterations).toNat ≤ fuel →
      ∃ fin n, AdaptiveReflection.refineLoop g c fuel s = some (fin, n) ∧
        n ≤ (AdaptiveReflection.MAX_ITERATIONS - s.iterations).toNat + 1 := by
  intro fuel
  induction fuel with
  | zero =>
    intro s hs
    have hstop := AR_roundStep_stop_of_max g c s (by rw [AR_roundStep_iterations]; omega)
    refine ⟨AdaptiveReflection.finalizer (AdaptiveReflection.roundStep g c s), 1, ?_, by omega⟩
    simp [AdaptiveReflection.refineLoop, hstop]
  | succ fuel ih =>
    intro s hs
    cases hroute : AdaptiveReflection.should_refine (AdaptiveReflection.roundStep g c s) with
    | finalizer =>
      refine ⟨AdaptiveReflection.finalizer (AdaptiveReflection.roundStep g c s), 1, ?_, by omega⟩
      simp [AdaptiveReflection.refineLoop, hroute]
    | generator =>
      have hlt := AR_roundStep_continue_lt g c s hroute
      rw [AR_roundStep_iterations] at hlt
      obtain ⟨fin, n, hrun, hn⟩ := ih (AdaptiveReflection.roundStep g c s)
        (by rw [AR_roundStep_iterations]; omega)
      rw [AR_roundStep_iterations] at hn
      refine ⟨fin, n + 1, ?_, by omega⟩
      simp [AdaptiveReflection.refineLoop, hroute, hrun]

lemma PE_should_refine_stop_of_max (s : PlanExecute.PEState)
    (hge : PlanExecute.MAX_REFLECTION_ITERATIONS ≤ s.reflection_iterations) :
    PlanExecute.should_refine s = RefineRoute.finalizer := by
  unfold PlanExecute.should_refine
  by_cases h1 : pyIn "APPROVED" (pyUpper s.critique) = true
  · simp [h1]
  · simp [h1, ge_iff_le, hge]

lemma PE_should_refine_continue_lt (s : PlanExecute.PEState)
    (h : PlanExecute.should_refine s = RefineRoute.generator) :
    s.reflection_iterations < PlanExecute.MAX_REFLECTION_ITERATIONS := by
  by_contra hge
  push_neg at hge
  rw [PE_should_refine_stop_of_max s hge] at h
  exact RefineRoute.noConfusion h

lemma PE_refineLoop_terminates (g c : String → String) :
    ∀ (fuel : Nat) (s : PlanExecute.PEState),
      (PlanExecute.MAX_REFLECTION_ITERATIONS - s.reflection_iterations).toNat ≤ fuel →
      ∃ fin n, PlanExecute.refineLoop g c fuel s = some (fin, n) ∧
        n ≤ (PlanExecute.MAX_REFLECTION_ITERATIONS - s.reflection_iterations).toNat + 1 := by
  intro fuel
  induction fuel with
  | zero =>
    intro s hs
    have hstop := PE_should_refine_stop_of_max (PlanExecute.roundStep g c s)
      (by rw [PE_roundStep_iterations]; omega)
    refine ⟨PlanExecute.finalizer (PlanExecute.roundStep g c s), 1, ?_, by omega⟩
    simp [PlanExecute.refineLoop, hstop]
  | succ fuel ih =>
    intro s hs
    cases hroute : PlanExecute.should_refine (PlanExecute.roundStep g c s) with
    | finalizer =>
      refine ⟨PlanExecute.finalizer (PlanExecute.roundStep g c s), 1, ?_, by omega⟩
      simp [PlanExecute.refineLoop, hroute]
    | generator =>
      have hlt := PE_should_refine_continue_lt (PlanExecute.roundStep g c s) hroute
      rw [PE_roundStep_iterations] at hlt
      obtain ⟨fin, n, hrun, hn⟩ := ih (PlanExecute.roundStep g c s)
        (by rw [PE_roundStep_iterations]; omega)
      rw [PE_roundStep_iterations] at hn
      refine ⟨fin, n + 1, ?_, by omega⟩
      simp [PlanExecute.refineLoop, hroute, hrun]

/-- C2: started from a freshly invoked state (iteration counter 0), each refine
loop terminates for every oracle behaviour, within any fuel of at least
MAX_ITERATIONS rounds, and the generator node is invoked at most
MAX_ITERATIONS + 1 times (respectively MAX_REFLECTION_ITERATIONS + 1 for the
plan-execute reflection loop) before control reaches the finalizer. -/
theorem C2_refine_loop_bounded :
    (∀ (g : String → String) (c : String → AdaptiveReflection.QualityScore)
        (fuel : Nat) (s : AdaptiveReflection.ARState),
      s.iterations = 0 → AdaptiveReflection.MAX_ITERATIONS.toNat ≤ fuel →
      ∃ fin n, AdaptiveReflection.refineLoop g c fuel s = some (fin, n) ∧
        (n : Int) ≤ AdaptiveReflection.MAX_ITERATIONS + 1) ∧
    (∀ (g c : String → String) (fuel : Nat) (s : PlanExecute.PEState),
      s.reflection_iterations = 0 → PlanExecute.MAX_REFLECTION_ITERATIONS.toNat ≤ fuel →
      ∃ fin n, PlanExecute.refineLoop g c fuel s = some (fin, n) ∧
        (n : Int) ≤ PlanExecute.MAX_REFLECTION_ITERATIONS + 1) := by
  constructor
  · intro g c fuel s h0 hfuel
    have hM : AdaptiveReflection.MAX_ITERATIONS = 3 := rfl
    have hfuel3 : 3 ≤ fuel := by simpa [hM] using hfuel
    obtain ⟨fin, n, hrun, hn⟩ := AR_refineLoop_terminates g c fuel s
      (by rw [h0, hM]; simpa using hfuel3)
    refine ⟨fin, n, hrun, ?_⟩
    rw [h0, hM] at hn
    rw [hM]
    simp only [sub_zero] at hn
    omega
  · intro g c fuel s h0 hfuel
    have hM : PlanExecute.MAX_REFLECTION_ITERATIONS = 2 := rfl
    have hfuel2 : 2 ≤ fuel := by simpa [hM] using hfuel
    obtain ⟨fin, n, hrun, hn⟩ := PE_refineLoop_terminates g c fuel s
      (by rw [h0, hM]; simpa using hfuel2)
    refine ⟨fin, n, hrun, ?_⟩
    rw [h0, hM] at hn
    rw [hM]
    simp only [sub_zero] at hn
    omega

/-- C2 witness: a run of the adaptive loop with a critic that never approves
still terminates with at most 4 generator calls at fuel 3. -/
theorem C2_refine_loop_bounded_witness :
    ∃ fin n,
      AdaptiveReflection.refineLoop (fun _ => "draft") (fun _ => ⟨1, 1, 1, "weak"⟩) 3
        ⟨"task", "", [], 0, ""⟩ = some (fin, n) ∧
      (n : Int) ≤ AdaptiveReflection.MAX_ITERATIONS + 1 :=
  C2_refine_loop_bounded.1 (fun _ => "draft") (fun _ => ⟨1, 1, 1, "weak"⟩) 3
    ⟨"task", "", [], 0, ""⟩ rfl (by decide)

/- Helper for C8: a completed refine-loop run ends in a finalizer-produced
   state whose final_output is its draft. -/

lemma AR_refineLoop_final_output (g : String → String)
    (c : String → AdaptiveReflection.QualityScore) :
    ∀ (fuel : Nat) (s fin : AdaptiveReflection.ARState) (n : Nat),
      AdaptiveReflection.refineLoop g c fuel s = some (fin, n) →
      fin.final_output = fin.draft := by
  intro fuel
  induction fuel with
  | zero =>
    intro s fin n h
    simp only [AdaptiveReflection.refineLoop] at h
    cases hroute : AdaptiveReflection.should_refine (AdaptiveReflection.roundStep g c s) <;>
      rw [hroute] at h
    · exact Option.noConfusion h
    · obtain ⟨rfl, rfl⟩ : AdaptiveReflection.finalizer (AdaptiveReflection.roundStep g c s)
          = fin ∧ 1 = n := by
        have := Option.some.inj h
        exact ⟨congrArg Prod.fst this, congrArg Prod.snd this⟩
      rfl
  | succ fuel ih =>
    intro s fin n h
    simp only [AdaptiveReflection.refineLoop] at h
    cases hroute : AdaptiveReflection.should_refine (AdaptiveReflection.roundStep g c s) <;>
      rw [hroute] at h
    · cases hrec : AdaptiveReflection.refineLoop g c fuel (AdaptiveReflection.roundStep g c s) with
      | none => rw [hrec] at h; exact Option.noConfusion h
      | some p =>
        rw [hrec] at h
        have hfin : p.1 = fin := congrArg Prod.fst (Option.some.inj h)
        rw [← hfin]
        exact ih _ p.1 p.2 (by rw [hrec])
    · obtain rfl : AdaptiveReflection.finalizer (AdaptiveReflection.roundStep g c s) = fin :=
        congrArg Prod.fst (Option.some.inj h)
      rfl

lemma PE_refineLoop_final_output (g c : String → String) :
    ∀ (fuel : Nat) (s fin : PlanExecute.PEState) (n : Nat),
      PlanExecute.refineLoop g c fuel s = some (fin, n) →
      fin.final_output = fin.draft := by
  intro fuel
  induction fuel with
  | zero =>
    intro s fin n h
    simp only [PlanExecute.refineLoop] at h
    cases hroute : PlanExecute.should_refine (PlanExecute.roundStep g c s) <;>
      rw [hroute] at h
    · exact Option.noConfusion h
    · obtain rfl : PlanExecute.finalizer (PlanExecute.roundStep g c s) = fin :=
        congrArg Prod.fst (Option.some.inj h)
      rfl
  | succ fuel ih =>
    intro s fin n h
    simp only [PlanExecute.refineLoop] at h
    cases hroute : PlanExecute.should_refine (PlanExecute.roundStep g c s) <;>
      rw [hroute] at h
    · cases hrec : PlanExecute.refineLoop g c fuel (PlanExecute.roundStep g c s) with
      | none => rw [hrec] at h; exact Option.noConfusion h
      | some p =>
        rw [hrec] at h
        have hfin : p.1 = fin := congrArg Prod.fst (Option.some.inj h)
        rw [← hfin]
        exact ih _ p.1 p.2 (by rw [hrec])
    · obtain rfl : PlanExecute.finalizer (PlanExecute.roundStep g c s) = fin :=
        congrArg Prod.fst (Option.some.inj h)
      rfl

/-- C8: in both graphs the finalizer is the sole writer of final_output — every
generator-critic round (hence every state the router observes) leaves
final_output untouched, and so do the planner and executor of the plan-execute
graph — the finalizer sets final_output to the current draft, a completed run
ends in a state whose final_output is that finalizer-copied draft, and the
only edge leaving the finalizer node in either builder goes to END (the
finalizer is not a conditional-edge source), so no further node executes. -/
theorem C8_final_output_terminal :
    (∀ (g : String → String) (c : String → AdaptiveReflection.QualityScore)
        (s : AdaptiveReflection.ARState),
      (AdaptiveReflection.generator g s).final_output = s.final_output ∧
      (AdaptiveReflection.critic c s).final_output = s.final_output ∧
      (AdaptiveReflection.finalizer s).final_output = s.draft) ∧
    (∀ (g : String → String) (c : String → AdaptiveReflection.QualityScore)
        (s : AdaptiveReflection.ARState) (k : Nat),
      ((AdaptiveReflection.roundStep g c)^[k] s).final_output = s.final_output) ∧
    (∀ (g : String → String) (c : String → AdaptiveReflection.QualityScore)
        (fuel : Nat) (s fin : AdaptiveReflection.ARState) (n : Nat),
      AdaptiveReflection.refineLoop g c fuel s = some (fin, n) →
      fin.final_output = fin.draft) ∧
    (∀ t, ("finalizer", t) ∈ AdaptiveReflection.reflection_builder_edges → t = "__end__") ∧
    "finalizer" ∉ AdaptiveReflection.reflection_builder_conditional_sources ∧
    (∀ (p g c : String → String) (s : PlanExecute.PEState),
      (PlanExecute.planner p s).final_output = s.final_output ∧
      (PlanExecute.executor p s).final_output = s.final_output ∧
      (PlanExecute.generator g s).final_output = s.final_output ∧
      (PlanExecute.critic c s).final_output = s.final_output ∧
      (PlanExecute.finalizer s).final_output = s.draft) ∧
    (∀ (g c : String → String) (fuel : Nat) (s fin : PlanExecute.PEState) (n : Nat),
      PlanExecute.refineLoop g c fuel s = some (fin, n) →
      fin.final_output = fin.draft) ∧
    (∀ t, ("finalizer", t) ∈ PlanExecute.plan_execute_builder_edges → t = "__end__") ∧
    "finalizer" ∉ PlanExecute.plan_execute_builder_conditional_sources := by
  refine ⟨fun g c s => ⟨rfl, rfl, rfl⟩, ?_, AR_refineLoop_final_output, ?_, by decide,
    ?_, PE_refineLoop_final_output, ?_, by decide⟩
  · intro g c s k
    induction k with
    | zero => rfl
    | succ k ih => rw [Function.iterate_succ_apply']; exact ih
  · intro t ht
    simp only [AdaptiveReflection.reflection_builder_edges, List.mem_cons,
      List.mem_singleton, Prod.mk.injEq] at ht
    rcases ht with ⟨h, _⟩ | ⟨h, _⟩ | ⟨_, h2⟩ | h
    · exact absurd h (by decide)
    · exact absurd h (by decide)
    · exact h2
    · exact absurd h (by simp)
  · intro p g c s
    refine ⟨rfl, ?_, rfl, rfl, rfl⟩
    unfold PlanExecute.executor
    split <;> rfl
  · intro t ht
    simp only [PlanExecute.plan_execute_builder_edges, List.mem_cons,
      List.mem_singleton, Prod.mk.injEq] at ht
    rcases ht with ⟨h, _⟩ | ⟨h, _⟩ | ⟨h, _⟩ | ⟨_, h2⟩ | h
    · exact absurd h (by decide)
    · exact absurd h (by decide)
    · exact absurd h (by decide)
    · exact h2
    · exact absurd h (by simp)

/-- C8 witness: the edge and run facts applied at concrete inputs — the
finalizer edge of the reflection builder goes to END, and a concrete completed
run has final_output equal to its draft. -/
theorem C8_final_output_terminal_witness :
    ("__end__" : String) = "__end__" ∧
    (AdaptiveReflection.refineLoop (fun _ => "draft") (fun _ => ⟨5, 5, 5, "great"⟩) 3
        ⟨"task", "", [], 0, ""⟩).elim True (fun p => p.1.final_output = p.1.draft) := by
  constructor
  · exact C8_final_output_terminal.2.2.2.1 "__end__" (by decide)
  · cases hrun : AdaptiveReflection.refineLoop (fun _ => "draft")
        (fun _ => ⟨5, 5, 5, "great"⟩) 3 ⟨"task", "", [], 0, ""⟩ with
    | none => exact trivial
    | some p =>
      exact C8_final_output_terminal.2.2.1 (fun _ => "draft") (fun _ => ⟨5, 5, 5, "great"⟩)
        3 ⟨"task", "", [], 0, ""⟩ p.1 p.2 (by rw [hrun])

/- Helpers for C5: closed form of the execution phase. -/

lemma PE_resultsUpTo_length (o : String → String) (p : List String) :
    ∀ k, (PlanExecute.resultsUpTo o p k).length = k := by
  intro k
  induction k with
  | zero => rfl
  | succ k ih => simp [PlanExecute.resultsUpTo, ih]

lemma getD_concat_at_length (l : List String) (a d : String) (i : Nat)
    (h : i = l.length) : (l ++ [a]).getD i d = a := by
  subst h
  simp [List.getD_eq_getElem?_getD]

lemma take_concat_at_length (l : List String) (a : String) (i : Nat)
    (h : i = l.length) : (l ++ [a]).take i = l := by
  subst h
  exact List.take_left l [a]

lemma PE_resultsUpTo_getD (o : String → String) (p : List String) :
    ∀ k i, i < k →
      (PlanExecute.resultsUpTo o p k).getD i "" =
        "Step " ++ toString (i + 1) ++ " result: "
          ++ o (PlanExecute.executorPrompt (PlanExecute.resultsUpTo o p i) (p.getD i "")) := by
  intro k
  induction k with
  | zero => intro i h; omega
  | succ k ih =>
    intro i h
    by_cases hik : i < k
    · rw [show PlanExecute.resultsUpTo o p (k + 1) = PlanExecute.resultsUpTo o p k
          ++ ["Step " ++ toString (k + 1) ++ " result: "
                ++ o (PlanExecute.executorPrompt (PlanExecute.resultsUpTo o p k) (p.getD k ""))]
          from rfl]
      rw [List.getD_append _ _ _ _ (by rw [PE_resultsUpTo_length]; exact hik)]
      exact ih i hik
    · have hieq : i = k := by omega
      subst hieq
      rw [show PlanExecute.resultsUpTo o p (i + 1) = PlanExecute.resultsUpTo o p i
          ++ ["Step " ++ toString (i + 1) ++ " result: "
                ++ o (PlanExecute.executorPrompt (PlanExecute.resultsUpTo o p i) (p.getD i ""))]
          from rfl]
      exact getD_concat_at_length _ _ _ _ (PE_resultsUpTo_length o p i).symm

lemma PE_resultsUpTo_take (o : String → String) (p : List String) :
    ∀ k i, i ≤ k → (PlanExecute.resultsUpTo o p k).take i = PlanExecute.resultsUpTo o p i := by
  intro k
  induction k with
  | zero =>
    intro i h
    have : i = 0 := by omega
    subst this
    rfl
  | succ k ih =>
    intro i h
    by_cases hik : i ≤ k
    · rw [show PlanExecute.resultsUpTo o p (k + 1) = PlanExecute.resultsUpTo o p k
          ++ ["Step " ++ toString (k + 1) ++ " result: "
                ++ o (PlanExecute.executorPrompt (PlanExecute.resultsUpTo o p k) (p.getD k ""))]
          from rfl]
      rw [List.take_append_of_le_length (by rw [PE_resultsUpTo_length]; exact hik)]
      exact ih i hik
    · have hieq : i = k + 1 := by omega
      subst hieq
      exact List.take_of_length_le (by rw [PE_resultsUpTo_length])

lemma PE_execLoop_run (o : String → String) :
    ∀ (fuel : Nat) (s : PlanExecute.PEState),
      s.current_step ≤ s.plan.length →
      s.results = PlanExecute.resultsUpTo o s.plan s.current_step →
      s.plan.length ≤ s.current_step + fuel →
      PlanExecute.execLoop o fuel s =
        some { s with results := PlanExecute.resultsUpTo o s.plan s.plan.length,
                      current_step := s.plan.length } := by
  intro fuel
  induction fuel with
  | zero =>
    intro s hle hres hlen
    have hcs : s.current_step = s.plan.length := by omega
    have hexec : PlanExecute.executor o s = s := by
      unfold PlanExecute.executor
      rw [if_pos (by omega)]
    have hroute : PlanExecute.should_continue_execution s = PlanExecute.ExecRoute.generator := by
      unfold PlanExecute.should_continue_execution
      rw [if_neg (by omega)]
    simp only [PlanExecute.execLoop, hexec, hroute]
    obtain ⟨inp, plan, cs, res, dr, cr, ri, fo⟩ := s
    simp only at hcs hres ⊢
    subst hcs
    rw [hres]
  | succ fuel ih =>
    intro s hle hres hlen
    by_cases hcs : s.current_step < s.plan.length
    · have hexec : PlanExecute.executor o s =
          { s with
            results := s.results
              ++ ["Step " ++ toString (s.current_step + 1) ++ " result: "
                    ++ o (PlanExecute.executorPrompt s.results (s.plan.getD s.current_step ""))],
            current_step := s.current_step + 1 } := by
        unfold PlanExecute.executor
        rw [if_neg (by omega)]
      have ht1 : (PlanExecute.executor o s).current_step = s.current_step + 1 := by
        rw [hexec]
      have ht2 : (PlanExecute.executor o s).plan = s.plan := by
        rw [hexec]
      have hres2 : (PlanExecute.executor o s).results =
          PlanExecute.resultsUpTo o s.plan (s.current_step + 1) := by
        rw [hexec]
        show s.results ++ _ = _
        rw [hres]
        rfl
      by_cases hdone : s.current_step + 1 < s.plan.length
      · have hroute : PlanExecute.should_continue_execution (PlanExecute.executor o s) =
            PlanExecute.ExecRoute.executor := by
          unfold PlanExecute.should_continue_execution
          rw [ht1, ht2]
          exact if_pos hdone
        simp only [PlanExecute.execLoop, hroute]
        have happ := ih (PlanExecute.executor o s)
          (by rw [ht1, ht2]; omega)
          (by rw [hres2, ht2, ht1])
          (by rw [ht1, ht2]; omega)
        rw [happ]
        obtain ⟨inp, plan, cs, res, dr, cr, ri, fo⟩ := s
        rw [hexec]
      · have hstep : s.current_step + 1 = s.plan.length := by omega
        have hroute : PlanExecute.should_continue_execution (PlanExecute.executor o s) =
            PlanExecute.ExecRoute.generator := by
          unfold PlanExecute.should_continue_execution
          rw [ht1, ht2]
          exact if_neg hdone
        simp only [PlanExecute.execLoop, hroute]
        have hR : s.results
            ++ ["Step " ++ toString (s.current_step + 1) ++ " result: "
                  ++ o (PlanExecute.executorPrompt s.results (s.plan.getD s.current_step ""))] =
            PlanExecute.resultsUpTo o s.plan (s.current_step + 1) := by
          rw [hres]
          rfl
        rw [hexec, hR, hstep]
    · have hcseq : s.current_step = s.plan.length := by omega
      have hexec : PlanExecute.executor o s = s := by
        unfold PlanExecute.executor
        rw [if_pos (by omega)]
      have hroute : PlanExecute.should_continue_execution s = PlanExecute.ExecRoute.generator := by
        unfold PlanExecute.should_continue_execution
        rw [if_neg (by omega)]
      simp only [PlanExecute.execLoop, hexec, hroute]
      obtain ⟨inp, plan, cs, res, dr, cr, ri, fo⟩ := s
      simp only at hcseq hres ⊢
      subst hcseq
      rw [hres]

/-- C5: from the state the planner hands over (step index 0, empty result
list), the execution phase appends exactly one result per plan step before the
router transfers control to the synthesis generator: the final state holds
exactly N results for an N-step plan, the i-th result is labelled with step
number i+1 and is produced by the oracle from the i-th plan step together with
precisely the i results already accumulated (so step i+1 never starts before
step i's result is appended). -/
theorem C5_executor_phase (o : String → String) (fuel : Nat) (s : PlanExecute.PEState)
    (h0 : s.current_step = 0) (h1 : s.results = []) (hf : s.plan.length ≤ fuel) :
    ∃ sf, PlanExecute.execLoop o fuel s = some sf ∧
      sf.plan = s.plan ∧
      sf.results.length = s.plan.length ∧
      sf.current_step = s.plan.length ∧
      PlanExecute.should_continue_execution sf = PlanExecute.ExecRoute.generator ∧
      (∀ i, i < s.plan.length →
        sf.results.getD i "" =
          "Step " ++ toString (i + 1) ++ " result: "
            ++ o (PlanExecute.executorPrompt (sf.results.take i) (s.plan.getD i ""))) ∧
      (∀ i, i < s.plan.length → (sf.results.take i).length = i) := by
  have hrun := PE_execLoop_run o fuel s (by omega)
    (by rw [h1, h0]; rfl) (by omega)
  refine ⟨_, hrun, rfl, PE_resultsUpTo_length o s.plan s.plan.length, rfl, ?_, ?_, ?_⟩
  · unfold PlanExecute.should_continue_execution
    rw [if_neg (by simp)]
  · intro i hi
    show (PlanExecute.resultsUpTo o s.plan s.plan.length).getD i "" =
      "Step " ++ toString (i + 1) ++ " result: "
        ++ o (PlanExecute.executorPrompt
            ((PlanExecute.resultsUpTo o s.plan s.plan.length).take i) (s.plan.getD i ""))
    rw [PE_resultsUpTo_take o s.plan s.plan.length i hi.le]
    exact PE_resultsUpTo_getD o s.plan s.plan.length i hi
  · intro i hi
    show ((PlanExecute.resultsUpTo o s.plan s.plan.length).take i).length = i
    rw [PE_resultsUpTo_take o s.plan s.plan.length i hi.le, PE_resultsUpTo_length]

/-- C5 witness: a two-step plan executed with fuel 2 yields exactly two ordered,
step-labelled results. -/
theorem C5_executor_phase_witness :
    ∃ sf, PlanExecute.execLoop (fun _ => "done") 2
        ⟨"task", ["1. first", "2. second"], 0, [], "", "", 0, ""⟩ = some sf ∧
      sf.plan = (⟨"task", ["1. first", "2. second"], 0, [], "", "", 0, ""⟩ :
        PlanExecute.PEState).plan ∧
      sf.results.length = (⟨"task", ["1. first", "2. second"], 0, [], "", "", 0, ""⟩ :
        PlanExecute.PEState).plan.length ∧
      sf.current_step = (⟨"task", ["1. first", "2. second"], 0, [], "", "", 0, ""⟩ :
        PlanExecute.PEState).plan.length ∧
      PlanExecute.should_continue_execution sf = PlanExecute.ExecRoute.generator ∧
      (∀ i, i < (⟨"task", ["1. first", "2. second"], 0, [], "", "", 0, ""⟩ :
          PlanExecute.PEState).plan.length →
        sf.results.getD i "" =
          "Step " ++ toString (i + 1) ++ " result: "
            ++ (fun _ => "done") (PlanExecute.executorPrompt (sf.results.take i)
                ((⟨"task", ["1. first", "2. second"], 0, [], "", "", 0, ""⟩ :
                  PlanExecute.PEState).plan.getD i ""))) ∧
      (∀ i, i < (⟨"task", ["1. first", "2. second"], 0, [], "", "", 0, ""⟩ :
          PlanExecute.PEState).plan.length → (sf.results.take i).length = i) :=
  C5_executor_phase (fun _ => "done") 2
    ⟨"task", ["1. first", "2. second"], 0, [], "", "", 0, ""⟩ rfl rfl (by decide)

/-- C6: plan parsing returns exactly the stripped forms of the response lines
that strip to non-empty text and carry a digit among their first three
characters, in their original order (the output is a sublist of the stripped
line sequence); every returned step is non-empty and comes from such a line,
and every other line is dropped with no further validation. -/
theorem C6_plan_parsing :
    (∀ content, PlanExecute.parse_steps content =
      ((pySplitLines content).filter
        (fun line => pyStrip line != "" && (line.data.take 3).any Char.isDigit)).map pyStrip) ∧
    (∀ content, List.Sublist (PlanExecute.parse_steps content)
      ((pySplitLines content).map pyStrip)) ∧
    (∀ content st, st ∈ PlanExecute.parse_steps content →
      st ≠ "" ∧ ∃ line, line ∈ pySplitLines content ∧ pyStrip line = st ∧
        (line.data.take 3).any Char.isDigit = true) := by
  refine ⟨fun content => rfl,
    fun content => List.Sublist.map pyStrip (List.filter_sublist _), ?_⟩
  intro content st hst
  unfold PlanExecute.parse_steps at hst
  obtain ⟨line, hline, rfl⟩ := List.mem_map.mp hst
  have hmem := List.mem_filter.mp hline
  have hcond := hmem.2
  rw [Bool.and_eq_true] at hcond
  refine ⟨?_, line, hmem.1, rfl, hcond.2⟩
  simpa using hcond.1

/-- C6 witness: the membership characterization applied to a concrete parsed
step of a four-line response in which two lines are dropped. -/
theorem C6_plan_parsing_witness :
    ("1. alpha" : String) ≠ "" ∧
    ∃ line, line ∈ pySplitLines "1. alpha\n\nnote\n2. beta" ∧
      pyStrip line = "1. alpha" ∧ (line.data.take 3).any Char.isDigit = true :=
  C6_plan_parsing.2.2 "1. alpha\n\nnote\n2. beta" "1. alpha" (by decide)

/-- C7: the tool-routing graph routes to the tool-execution node exactly when
the most recent message requests a capability, and finishes otherwise; a run
whose first assistant response carries no tool call ends immediately with that
direct answer appended and zero capability invocations. -/
theorem C7_tool_routing :
    (∀ s : StatefulAgent.MessagesState, s.messages ≠ [] →
      ((StatefulAgent.should_continue s = "tools" ↔
        (s.messages.getLastD StatefulAgent.emptyMessage).tool_calls ≠ []) ∧
       (StatefulAgent.should_continue s = "__end__" ↔
        (s.messages.getLastD StatefulAgent.emptyMessage).tool_calls = []))) ∧
    (∀ (a : List StatefulAgent.Message → StatefulAgent.Message)
        (t : StatefulAgent.ToolCall → String) (fuel : Nat)
        (msgs : List StatefulAgent.Message),
      (a msgs).tool_calls = [] →
      StatefulAgent.agentRun a t fuel msgs 0 = some (msgs ++ [a msgs], 0)) := by
  constructor
  · intro s hs
    unfold StatefulAgent.should_continue
    by_cases h : (s.messages.getLastD StatefulAgent.emptyMessage).tool_calls = []
    · simp [h]
    · simp [h]
  · intro a t fuel msgs h
    cases fuel <;> simp [StatefulAgent.agentRun, h]

/-- C7 witness: a concrete single-turn run with a tool-free response finishes
at END with zero invocations, and the router on the resulting state finishes. -/
theorem C7_tool_routing_witness :
    StatefulAgent.should_continue ⟨[⟨"assistant", "hello", []⟩]⟩ = "__end__" ∧
    StatefulAgent.agentRun (fun _ => ⟨"assistant", "direct answer", []⟩) (fun _ => "") 5
        [⟨"user", "question", []⟩] 0 =
      some ([⟨"user", "question", []⟩, ⟨"assistant", "direct answer", []⟩], 0) := by
  constructor
  · exact (C7_tool_routing.1 ⟨[⟨"assistant", "hello", []⟩]⟩ (by decide)).2.mpr (by decide)
  · exact C7_tool_routing.2 (fun _ => ⟨"assistant", "direct answer", []⟩) (fun _ => "") 5
      [⟨"user", "question", []⟩] rfl

/-- C9: every POST /search request whose query strips to empty, or whose
n_results lies outside 1..10, is rejected synchronously with a client-facing
HTTP error (surfaced with status 500 by the blanket except clause, carrying the
stringified validation error as detail) before any vector-store search or LLM
call is made. -/
theorem C9_search_validation (vec : String → Int → ChristmasRag.VecResults)
    (groq : Option (String → Option String)) (req : ChristmasRag.SearchRequest)
    (h : pyStrip req.query = "" ∨ req.n_results < 1 ∨ 10 < req.n_results) :
    (∃ d, (ChristmasRag.search vec groq req).outcome = .error (500, d)) ∧
    (ChristmasRag.search vec groq req).vec_calls = 0 ∧
    (ChristmasRag.search vec groq req).llm_calls = 0 := by
  unfold ChristmasRag.search ChristmasRag.search_inner
  by_cases h1 : req.query = "" ∨ pyStrip req.query = ""
  · rw [if_pos h1]
    exact ⟨⟨ChristmasRag.http_exception_str (400, "Query cannot be empty"), rfl⟩, rfl, rfl⟩
  · rw [if_neg h1]
    have h2 : req.n_results < 1 ∨ 10 < req.n_results := by
      rcases h with hq | hn | hn
      · exact absurd (Or.inr hq) h1
      · exact Or.inl hn
      · exact Or.inr hn
    rw [if_pos h2]
    exact ⟨⟨ChristmasRag.http_exception_str (400, "n_results must be between 1 and 10"), rfl⟩,
      rfl, rfl⟩

/-- C9 witness: a whitespace-only query and an out-of-range result count are
both rejected with no vector-store or LLM activity. -/
theorem C9_search_validation_witness :
    ((∃ d, (ChristmasRag.search ChristmasRag.emptyVec none ⟨"   ", 3, []⟩).outcome =
        .error (500, d)) ∧
      (ChristmasRag.search ChristmasRag.emptyVec none ⟨"   ", 3, []⟩).vec_calls = 0 ∧
      (ChristmasRag.search ChristmasRag.emptyVec none ⟨"   ", 3, []⟩).llm_calls = 0) ∧
    ((∃ d, (ChristmasRag.search ChristmasRag.emptyVec none ⟨"santa", 11, []⟩).outcome =
        .error (500, d)) ∧
      (ChristmasRag.search ChristmasRag.emptyVec none ⟨"santa", 11, []⟩).vec_calls = 0 ∧
      (ChristmasRag.search ChristmasRag.emptyVec none ⟨"santa", 11, []⟩).llm_calls = 0) :=
  ⟨C9_search_validation ChristmasRag.emptyVec none ⟨"   ", 3, []⟩ (Or.inl (by decide)),
   C9_search_validation ChristmasRag.emptyVec none ⟨"santa", 11, []⟩ (Or.inr (Or.inr (by decide)))⟩

/- Helpers for C10: a query that strips to empty normalizes to the empty
   string, which is not a greeting. -/

lemma dropWhile_all {p : Char → Bool} :
    ∀ l : List Char, (∀ c ∈ l.dropWhile p, p c = true) → ∀ c ∈ l, p c = true := by
  intro l
  induction l with
  | nil => intro _ c hc; exact absurd hc (List.not_mem_nil c)
  | cons a as ih =>
    intro h c hc
    rw [List.dropWhile_cons] at h
    by_cases hp : p a = true
    · rw [if_pos hp] at h
      rcases List.mem_cons.mp hc with rfl | hc2
      · exact hp
      · exact ih h c hc2
    · rw [if_neg hp] at h
      exact h c hc

lemma stripChars_nil_iff (l : List Char) :
    stripChars l = [] ↔ ∀ c ∈ l, c.isWhitespace = true := by
  unfold stripChars
  constructor
  · intro h
    rw [List.reverse_eq_nil_iff, List.dropWhile_eq_nil_iff] at h
    exact dropWhile_all l (fun c hc => h c (List.mem_reverse.mpr hc))
  · intro h
    have h1 : l.dropWhile Char.isWhitespace = [] :=
      List.dropWhile_eq_nil_iff.mpr (fun x hx => h x hx)
    rw [h1]
    rfl

lemma toLower_whitespace (c : Char) (h : c.isWhitespace = true) :
    (Char.toLower c).isWhitespace = true := by
  have h4 : c = ' ' ∨ c = '\t' ∨ c = '\r' ∨ c = '\n' := by
    simpa [Char.isWhitespace, or_assoc] using h
  rcases h4 with rfl | rfl | rfl | rfl <;> decide

lemma pyStrip_pyLower_empty (s : String) (h : pyStrip s = "") :
    pyStrip (pyLower s) = "" := by
  have hall : ∀ c ∈ s.data, c.isWhitespace = true :=
    (stripChars_nil_iff s.data).mp (congrArg String.data h)
  have h2 : stripChars (s.data.map Char.toLower) = [] :=
    (stripChars_nil_iff _).mpr (by
      intro c hc
      obtain ⟨c0, hc0, rfl⟩ := List.mem_map.mp hc
      exact toLower_whitespace c0 (hall c0 hc0))
  show (⟨stripChars (s.data.map Char.toLower)⟩ : String) = ""
  rw [h2]

lemma greeting_query_not_blank (q : String)
    (h : ChristmasRag.greetingsList.contains (ChristmasRag.normalized_query q) = true) :
    ¬(q = "" ∨ pyStrip q = "") := by
  intro hor
  rcases hor with rfl | hq
  · exact absurd h (by decide)
  · have h5 : pyStrip (pyLower q) = "" := pyStrip_pyLower_empty q hq
    have h6 : ChristmasRag.normalized_query q = "" := by
      unfold ChristmasRag.normalized_query
      rw [h5]
      rfl
    rw [h6] at h
    exact absurd h (by decide)

/-- C10 counterexample: the claim fails as stated on POST /search, which
validates n_results before the greeting check — the greeting query hi with
n_results 0 satisfies the claim's premise yet is answered with an HTTP error,
not with the fixed greeting chunk. -/
theorem C10_counterexample :
    ChristmasRag.greetingsList.contains (ChristmasRag.normalized_query "hi") = true ∧
    (ChristmasRag.search ChristmasRag.emptyVec none ⟨"hi", 0, []⟩).outcome =
      .error (500, ChristmasRag.http_exception_str
        (400, "n_results must be between 1 and 10")) ∧
    (ChristmasRag.search ChristmasRag.emptyVec none ⟨"hi", 0, []⟩).outcome ≠
      .ok ⟨true, "hi", [ChristmasRag.greeting_chunk], 1⟩ := by
  refine ⟨by decide, rfl, ?_⟩
  intro hok
  have h1 : (ChristmasRag.search ChristmasRag.emptyVec none ⟨"hi", 0, []⟩).outcome =
      .error (500, ChristmasRag.http_exception_str
        (400, "n_results must be between 1 and 10")) := rfl
  rw [hok] at h1
  exact Except.noConfusion h1

/-- C10 (amended): for every /search request whose n_results lies in the
accepted range 1..10 and whose query, after lowercasing, stripping and removing
trailing bang, question-mark and dot characters, is one of hi, hello, hey,
greetings, the handler returns success with exactly the single fixed greeting
chunk (relevance 1.0, total_chunks 1) and performs no vector-store search and
no LLM call; for every /search/stream request whose query normalizes to such a
greeting (that endpoint does not validate n_results), the stream is the fixed
greeting text word by word followed by a done event carrying an empty chunk
list, again with no vector-store search and no LLM call. -/
theorem C10_greeting_short_circuit
    (vec : String → Int → ChristmasRag.VecResults)
    (groq : Option (String → Option String))
    (groqS : Option (List (String × String) → Option (List String)))
    (req : ChristmasRag.SearchRequest)
    (h : ChristmasRag.greetingsList.contains (ChristmasRag.normalized_query req.query) = true) :
    (1 ≤ req.n_results → req.n_results ≤ 10 →
      ChristmasRag.search vec groq req =
        ⟨.ok ⟨true, req.query, [ChristmasRag.greeting_chunk], 1⟩, 0, 0⟩) ∧
    ChristmasRag.search_stream vec groqS req =
      (ChristmasRag.stream_words ChristmasRag.GREETING_TEXT
        ++ [ChristmasRag.StreamEvent.doneEv (some [])], 0, 0) ∧
    ChristmasRag.greeting_chunk.relevance = 1 := by
  have hnb := greeting_query_not_blank req.query h
  refine ⟨?_, ?_, rfl⟩
  · intro hlo hhi
    unfold ChristmasRag.search ChristmasRag.search_inner
    rw [if_neg hnb, if_neg (show ¬(req.n_results < 1 ∨ 10 < req.n_results) by omega),
      if_pos h]
  · unfold ChristmasRag.search_stream
    rw [if_neg hnb, if_pos h]

/-- C10 (amended) witness: the concrete greeting query Hello! with n_results 3
short-circuits both endpoints. -/
theorem C10_greeting_short_circuit_witness :
    ChristmasRag.search ChristmasRag.emptyVec none ⟨"Hello!", 3, []⟩ =
      ⟨.ok ⟨true, "Hello!", [ChristmasRag.greeting_chunk], 1⟩, 0, 0⟩ ∧
    ChristmasRag.search_stream ChristmasRag.emptyVec none ⟨"Hello!", 3, []⟩ =
      (ChristmasRag.stream_words ChristmasRag.GREETING_TEXT
        ++ [ChristmasRag.StreamEvent.doneEv (some [])], 0, 0) := by
  have h := C10_greeting_short_circuit ChristmasRag.emptyVec none none
    ⟨"Hello!", 3, []⟩ (by decide)
  exact ⟨h.1 (by decide) (by decide), h.2.1⟩
